import Mathlib

/-!
Verification of the crawl service's fetch-and-aggregate pipeline
(`app.js`: `fetchDataFromGoogle`, `fetchContentFromUrl`, `app.post("/query")`).

The JavaScript source is shallowly embedded: HTTP collaborators (the search
index and the per-URL HTTP client) are abstract oracles passed as function
arguments; strings are Lean `String`s; JS numbers on the relevant paths are
natural numbers.  Every definition mirrors the corresponding source function;
spec-side characterisation functions are marked as such in their doc comments.
-/

namespace Crawl

/-- `leadsWith pat l` is true when `pat` is an initial segment of `l`
(character by character). Helper for the substring tests that model the
JavaScript `String.prototype.includes` and regex matching. -/
def leadsWith : List Char → List Char → Bool
  | [], _ => true
  | _ :: _, [] => false
  | a :: as, b :: bs => a == b && leadsWith as bs

/-- `hasSub pat l` is true when `pat` occurs contiguously inside `l`. -/
def hasSub (pat : List Char) : List Char → Bool
  | [] => leadsWith pat []
  | c :: cs => leadsWith pat (c :: cs) || hasSub pat cs

/-- Models JavaScript `s.includes(pat)` (substring containment). -/
def strIncludes (s pat : String) : Bool :=
  hasSub pat.toList s.toList

/-- ASCII lower-casing of a string, modelling the `/i` regex flag. -/
def lowerStr (s : String) : String :=
  String.mk (s.toList.map Char.toLower)

/-- `endsWithStr s suf` is true when `s` ends with `suf`; models a
`$`-anchored regex match. -/
def endsWithStr (s suf : String) : Bool :=
  leadsWith suf.toList.reverse s.toList.reverse

/-- Models JavaScript `s.slice(0, n)` for `n ≥ 0`: the first `n` characters. -/
def sliceStr (s : String) (n : Nat) : String :=
  String.mk (s.toList.take n)

/-! ## URL filter (`fetchDataFromGoogle`, candidate filter) -/

/-- The alternatives of the `excludedPatterns` regex
`/\.(pdf|doc|docx|xls|xlsx|ppt|pptx|txt|csv|zip|rar|jpg|jpeg|png|gif|bmp|webp|svg)$/i`. -/
def excludedExtList : List String :=
  ["pdf", "doc", "docx", "xls", "xlsx", "ppt", "pptx", "txt", "csv", "zip",
   "rar", "jpg", "jpeg", "png", "gif", "bmp", "webp", "svg"]

/-- `excludedPatterns.test(link)`: the link ends with a dot followed by one of
the excluded extensions, case-insensitively. -/
def extMatch (link : String) : Bool :=
  excludedExtList.any fun e => endsWithStr (lowerStr link) ("." ++ e)

/-- The alternatives of the `suspectedNonTextPatterns` regex
`/viewcontent|download|serveFile|\.cgi|login|signin|signup|register|cart|checkout|search\?/i`,
lower-cased. -/
def suspectedPatList : List String :=
  ["viewcontent", "download", "servefile", ".cgi", "login", "signin",
   "signup", "register", "cart", "checkout", "search?"]

/-- `suspectedNonTextPatterns.test(link)`: one of the suspected-non-content
patterns occurs anywhere in the link, case-insensitively. -/
def patMatch (link : String) : Bool :=
  suspectedPatList.any fun p => strIncludes (lowerStr link) p

/-- The candidate filter of `fetchDataFromGoogle` (the spec's `URLFilter`),
with the failure reason it records: the extension pattern is tested first,
then the suspected-non-content pattern; `none` means the candidate survives. -/
def urlFilterReason (link : String) : Option String :=
  if extMatch link then some "Excluded file extension"
  else if patMatch link then some "Suspected non-content URL"
  else none

/-- The spec's `URLFilter.isFetchable`: the candidate survives the filter. -/
def isFetchable (link : String) : Bool :=
  (urlFilterReason link).isNone

/-- Modelled from the spec: §4.2 calls a candidate URL "malformed" when the
URL parser cannot parse it.  The source's candidate filter never parses the
link, so we only need a sound under-approximation: a string containing no
colon has no scheme separator and is unparseable as a URL. -/
def lacksScheme (s : String) : Bool :=
  !(s.toList.contains ':')

/-! ## Search items and per-query record assembly (`fetchDataFromGoogle`) -/

/-- One entry of the search index's `items` array. -/
structure SearchItem where
  title : String
  link : String
deriving DecidableEq

/-- The record built for a successfully fetched candidate. -/
structure ResultRecord where
  title : String
  link : String
  content : String
deriving DecidableEq

/-- The labelled record appended for one result:
`Title: ${title}\nSOURCE: ${link}\nContent: ${content}\n\n`. -/
def formatRecord (r : ResultRecord) : String :=
  "Title: " ++ r.title ++ "\nSOURCE: " ++ r.link ++ "\nContent: " ++ r.content ++ "\n\n"

/-- The per-candidate callback of `fetchDataFromGoogle`: `fetchRes` models the
awaited `Promise.race` of `fetchContentFromUrl(item.link)` against the 20 s
timer (`none` when that race rejected, `some content` otherwise); the record
is kept exactly when `content && content.length > 100`. -/
def recordOf (fetchRes : String → Option String) (it : SearchItem) : Option ResultRecord :=
  match fetchRes it.link with
  | none => none
  | some content =>
      if 100 < content.length then some ⟨it.title, it.link, content⟩ else none

/-- The candidates surviving the URL filter, in index order. -/
def validItems (items : List SearchItem) : List SearchItem :=
  items.filter fun it => isFetchable it.link

/-- The `results.filter(Boolean).some(...)` fold of `fetchDataFromGoogle`:
append each formatted record while the budget check
`context.length + newContent.length <= maxChars` passes; the `.some` callback
returns `true` (stopping the walk) at the first record that fails it. -/
def buildContextGo (maxChars : Nat) : List ResultRecord → String → String
  | [], ctx => ctx
  | r :: rest, ctx =>
      let newContent := formatRecord r
      if ctx.length + newContent.length ≤ maxChars then
        buildContextGo maxChars rest (ctx ++ newContent)
      else ctx

/-- Per-query assembly: fold the successful records into `context` under
`maxChars`, starting from the empty string. -/
def buildContext (rs : List ResultRecord) (maxChars : Nat) : String :=
  buildContextGo maxChars rs ""

/-- `fetchDataFromGoogle` for one query, given the search items returned by
the index and the per-URL fetch oracle: filter the candidates, build the
per-candidate records (in candidate order, as `Promise.all` returns them),
drop the nulls, and fold under `maxChars`. -/
def fetchDataFromGoogle (items : List SearchItem) (fetchRes : String → Option String)
    (maxChars : Nat) : String :=
  buildContext (((validItems items).map (recordOf fetchRes)).filterMap id) maxChars

/-! ## ContentFetcher (`fetchContentFromUrl`) -/

/-- What one HTTP attempt observes: either a response (status code,
`content-type` header, body text) or a transport error (`error.code`,
`error.name`). -/
inductive AttemptOutcome where
  | response (statusCode : Nat) (contentType : Option String) (body : String)
  | transportError (code : String) (name : String)
deriving DecidableEq

/-- The spec's `FetchOutcome` variant, tagging which exit of
`fetchContentFromUrl` was taken (reasons are the source's log messages). -/
inductive FetchOutcome where
  | success (content : String)
  | skipped (reason : String)
  | failed (reason : String)
deriving DecidableEq

/-- The observable behaviour of one `fetchContentFromUrl` call: the string it
returns to the caller, the tagged outcome, the number of attempts issued, and
the backoff delays (milliseconds) slept before each retry. -/
structure FetchResult where
  retVal : String
  outcome : FetchOutcome
  attempts : Nat
  delaysMs : List Nat
deriving DecidableEq

/-- `const retryableStatusCodes = [429, 503, 502, 504]`. -/
def retryableStatusCodes : List Nat := [429, 503, 502, 504]

/-- `const maxRetries = 2`. -/
def maxRetries : Nat := 2

/-- got's `response.ok`: the status code is in the 2xx range. -/
def isOk (status : Nat) : Bool :=
  200 ≤ status && status ≤ 299

/-- `retryableStatusCodes.includes(statusCode)`. -/
def retryableStatus (status : Nat) : Bool :=
  retryableStatusCodes.contains status

/-- The retry condition of the `catch` block:
`error.code === "ECONNRESET" || error.code === "ETIMEDOUT" ||
error.code === "ECONNREFUSED" || error.name === "TimeoutError"`. -/
def retryableError (code nm : String) : Bool :=
  code == "ECONNRESET" || code == "ETIMEDOUT" || code == "ECONNREFUSED" || nm == "TimeoutError"

/-- The content-type gate: the declared type must contain `"html"` or
`"text"`. -/
def contentTypeOk (ct : String) : Bool :=
  strIncludes ct "html" || strIncludes ct "text"

/-- The markup sanity gate: `body.includes("<") && body.includes(">")`. -/
def markupOk (body : String) : Bool :=
  strIncludes body "<" && strIncludes body ">"

/-- Record one backoff delay in front of a fetch's behaviour. -/
def prependDelay (d : Nat) (r : FetchResult) : FetchResult :=
  { r with delaysMs := d :: r.delaysMs }

/-- The `while (attempt <= maxRetries)` loop of `fetchContentFromUrl`.
`extract` abstracts `extractTextFromHTML(body, url).markdown`; `oracle n`
is what attempt number `n` (0-based) observes.  `fuel` counts the loop
iterations still allowed (`maxRetries + 1 - attempt` on every reachable
call); the fuel-exhausted case corresponds to the `return ""` after the
loop, which is unreachable from `attempt = 0`. -/
def fetchLoop (extract : String → String) (oracle : Nat → AttemptOutcome) :
    Nat → Nat → FetchResult
  | 0, attempt => ⟨"", .failed "loop exhausted", attempt, []⟩
  | fuel + 1, attempt =>
    match oracle attempt with
    | .response status ct body =>
      if !(isOk status) then
        if retryableStatus status && decide (attempt < maxRetries) then
          prependDelay (2 ^ (attempt + 1) * 1000)
            (fetchLoop extract oracle fuel (attempt + 1))
        else ⟨"", .failed "Failed to fetch URL", attempt + 1, []⟩
      else if !(contentTypeOk (ct.getD "")) then
        ⟨"", .skipped "Skipping non-HTML/text content type", attempt + 1, []⟩
      else if !(markupOk body) then
        ⟨"", .skipped "Content doesn't appear to be valid HTML", attempt + 1, []⟩
      else ⟨extract body, .success (extract body), attempt + 1, []⟩
    | .transportError code nm =>
      if decide (attempt < maxRetries) && retryableError code nm then
        prependDelay (2 ^ (attempt + 1) * 1000)
          (fetchLoop extract oracle fuel (attempt + 1))
      else ⟨"", .failed "Error during content fetch", attempt + 1, []⟩

/-- `fetchContentFromUrl`: run the retry loop from `attempt = 0`. -/
def fetchContentFromUrl (extract : String → String) (oracle : Nat → AttemptOutcome) :
    FetchResult :=
  fetchLoop extract oracle (maxRetries + 1) 0

/-- Spec-side: the behaviour of a loop iteration that does **not** retry,
i.e. every `return` site of the loop body, for the attempt outcome `a`
observed as 0-based attempt number `attempt`. -/
def terminalResult (extract : String → String) (a : AttemptOutcome) (attempt : Nat) :
    FetchResult :=
  match a with
  | .response status ct body =>
    if !(isOk status) then ⟨"", .failed "Failed to fetch URL", attempt + 1, []⟩
    else if !(contentTypeOk (ct.getD "")) then
      ⟨"", .skipped "Skipping non-HTML/text content type", attempt + 1, []⟩
    else if !(markupOk body) then
      ⟨"", .skipped "Content doesn't appear to be valid HTML", attempt + 1, []⟩
    else ⟨extract body, .success (extract body), attempt + 1, []⟩
  | .transportError _ _ => ⟨"", .failed "Error during content fetch", attempt + 1, []⟩

/-- Spec-side: whether an attempt outcome satisfies a retry condition (a
retryable non-2xx status, or a retryable transport error). -/
def attemptRetryable : AttemptOutcome → Bool
  | .response status _ _ => !(isOk status) && retryableStatus status
  | .transportError code nm => retryableError code nm

/-- Spec-side: how many retries the loop performs against `oracle` — the
length of the initial run of retryable attempt outcomes, capped at
`maxRetries = 2`. -/
def retryRun (oracle : Nat → AttemptOutcome) : Nat :=
  if attemptRetryable (oracle 0) then
    if attemptRetryable (oracle 1) then 2 else 1
  else 0

/-! ## Completion-order model for the concurrent fan-out -/

/-- Event-loop model of `Promise.all`'s result buffer: process completions in
`order`, writing each completed value `res i` into slot `i`. -/
def fillSlots {α : Type} (res : Nat → α) : List Nat → List (Option α) → List (Option α)
  | [], slots => slots
  | i :: rest, slots => fillSlots res rest (slots.set i (some (res i)))

/-- `fetchDataFromGoogle` with the concurrent fetches completing in the
arbitrary order `order`: each completion fills its own candidate-indexed slot,
and the fold then walks the slots in candidate-index order. -/
def fetchDataScheduled (items : List SearchItem) (fetchRes : String → Option String)
    (maxChars : Nat) (order : List Nat) : String :=
  buildContext
    (((fillSlots (fun i => ((validItems items)[i]?).bind (recordOf fetchRes)) order
        (List.replicate (validItems items).length none)).filterMap id).filterMap id)
    maxChars

/-! ## Spec-side characterisation of the budget fold -/

/-- Right-fold concatenation of formatted records (spec-side helper). -/
def concatRecords (rs : List ResultRecord) : String :=
  rs.foldr (fun r acc => formatRecord r ++ acc) ""

/-- Spec-side: the number of records the budget fold appends before stopping,
starting from an accumulated length `len`. -/
def stopCountAux (maxChars : Nat) : List ResultRecord → Nat → Nat
  | [], _ => 0
  | r :: rest, len =>
      if len + (formatRecord r).length ≤ maxChars then
        stopCountAux maxChars rest (len + (formatRecord r).length) + 1
      else 0

/-! ## Cross-query composition (`app.post("/query")`) -/

/-- The 79-dash separator line appended after every query's section. -/
def sectionSep : String :=
  "-------------------------------------------------------------------------------"

/-- One query's wrapped section:
`**${query}:**\n${queryContext}\n<separator>\n\n\n`. -/
def sectionText (query queryContext : String) : String :=
  "**" ++ query ++ ":**\n" ++ queryContext ++ "\n" ++ sectionSep ++ "\n\n\n"

/-- The `/query` handler's composition step.  `results` is the value of
`Promise.all(queryPromises)`.  When the global 60 s timer wins the
`Promise.race`, the race rejects, the `catch` block swallows the rejection,
and `contextData` is still the empty string when it reaches the final
`slice(0, maxTotalChars)`; otherwise every completed section is appended in
input order before the slice. -/
def aggregateContextData (results : List (String × String)) (timedOut : Bool)
    (maxTotalChars : Nat) : String :=
  sliceStr
    (if timedOut then ""
     else results.foldl (fun acc r => acc ++ sectionText r.1 r.2) "")
    maxTotalChars

/-- `charsPerQuery = Math.floor(maxTotalChars / queries.length)`. -/
def charsPerQuery (maxTotalChars numQueries : Nat) : Nat :=
  maxTotalChars / numQueries

/-- The per-query work of the `/query` handler: every query is fetched with
the same budget `charsPerQuery maxTotalChars queries.length`. -/
def runQueries (queries : List String) (searchFor : String → List SearchItem)
    (fetchRes : String → Option String) (maxTotalChars : Nat) : List (String × String) :=
  queries.map fun q =>
    (q, fetchDataFromGoogle (searchFor q) fetchRes (charsPerQuery maxTotalChars queries.length))

/-- The whole `/query` handler after validation, for a request whose queries,
search results and page fetches are given by the oracles; `timedOut` records
whether the global 60 s timer won the race. -/
def handleQueryRequest (queries : List String) (searchFor : String → List SearchItem)
    (fetchRes : String → Option String) (timedOut : Bool) (maxTotalChars : Nat) : String :=
  aggregateContextData (runQueries queries searchFor fetchRes maxTotalChars) timedOut maxTotalChars

/-! ## Helper lemmas -/

theorem sliceStr_length_le (s : String) (n : Nat) : (sliceStr s n).length ≤ n := by
  have h : (sliceStr s n).length = (s.toList.take n).length := rfl
  rw [h, List.length_take]
  exact Nat.min_le_left n _

/-! ## Claims about the `/query` composition -/

/-- Claim C2 (confirmed): for every request — any queries, any search
results, any page bodies, whether or not the global timeout fired — the
returned `contextData` has length at most `maxTotalChars`, because the
handler ends with `contextData.slice(0, maxTotalChars)`. -/
theorem contextData_length_le_maxTotalChars (queries : List String)
    (searchFor : String → List SearchItem) (fetchRes : String → Option String)
    (timedOut : Bool) (maxTotalChars : Nat) :
    (handleQueryRequest queries searchFor fetchRes timedOut maxTotalChars).length
      ≤ maxTotalChars :=
  sliceStr_length_le _ maxTotalChars

/-- Claim C1 (code bug): when the global 60 s timeout wins the
`Promise.race`, the race rejects and the `catch` block discards the
(eventually resolved) `Promise.all` value, so the handler responds with an
**empty** `contextData` — the sections of the queries that had already
completed (here the non-empty results of queries 1 and 3) are *not*
included, and no `timedOut` field exists in the response, contradicting the
spec's "return whatever per-query sections have completed" and the code's
own log line "Operation timed out, returning partial results". -/
theorem queryTimeout_discards_completed_sections :
    aggregateContextData
      [("query one", "Title: a\nSOURCE: b\nContent: completed result one\n\n"),
       ("query three", "Title: c\nSOURCE: d\nContent: completed result three\n\n")]
      true 200000 = "" := rfl

/-- Claim C9 (confirmed): for every request with a non-empty query list the
per-query budget is `floor(maxTotalChars / len(queries))`, every query is
fetched with that same budget, and `len(queries) * charBudget ≤
maxTotalChars`. -/
theorem charBudget_floor_identical (searchFor : String → List SearchItem)
    (fetchRes : String → Option String) (queries : List String) (maxTotalChars : Nat)
    (hne : queries ≠ []) :
    charsPerQuery maxTotalChars queries.length = maxTotalChars / queries.length
    ∧ (∀ q ∈ queries,
        (q, fetchDataFromGoogle (searchFor q) fetchRes
              (charsPerQuery maxTotalChars queries.length))
          ∈ runQueries queries searchFor fetchRes maxTotalChars)
    ∧ queries.length * charsPerQuery maxTotalChars queries.length ≤ maxTotalChars := by
  refine ⟨rfl, ?_, ?_⟩
  · intro q hq
    exact List.mem_map.mpr ⟨q, hq, rfl⟩
  · calc queries.length * charsPerQuery maxTotalChars queries.length
        = maxTotalChars / queries.length * queries.length := Nat.mul_comm _ _
    _ ≤ maxTotalChars := Nat.div_mul_le_self _ _

/-- Witness for `charBudget_floor_identical` at the request
`queries = ["a", "b", "c"]`, `maxTotalChars = 10`. -/
theorem charBudget_floor_identical_witness :
    charsPerQuery 10 (["a", "b", "c"] : List String).length
        = 10 / (["a", "b", "c"] : List String).length
    ∧ (∀ q ∈ (["a", "b", "c"] : List String),
        (q, fetchDataFromGoogle ((fun _ => ([] : List SearchItem)) q) (fun _ => none)
              (charsPerQuery 10 (["a", "b", "c"] : List String).length))
          ∈ runQueries ["a", "b", "c"] (fun _ => []) (fun _ => none) 10)
    ∧ (["a", "b", "c"] : List String).length
        * charsPerQuery 10 (["a", "b", "c"] : List String).length ≤ 10 :=
  charBudget_floor_identical (fun _ => []) (fun _ => none) ["a", "b", "c"] 10 (by decide)

/-! ## The per-query budget fold stops at the first overflow -/

theorem concatRecords_cons (r : ResultRecord) (rs : List ResultRecord) :
    concatRecords (r :: rs) = formatRecord r ++ concatRecords rs := rfl

theorem buildContextGo_spec (maxChars : Nat) :
    ∀ (rs : List ResultRecord) (ctx : String),
      buildContextGo maxChars rs ctx
          = ctx ++ concatRecords (rs.take (stopCountAux maxChars rs ctx.length))
      ∧ (ctx.length ≤ maxChars →
          (ctx ++ concatRecords (rs.take (stopCountAux maxChars rs ctx.length))).length
            ≤ maxChars)
      ∧ (stopCountAux maxChars rs ctx.length < rs.length →
          maxChars <
            (ctx ++ concatRecords (rs.take (stopCountAux maxChars rs ctx.length + 1))).length)
  | [], ctx => by
      refine ⟨by simp [buildContextGo, stopCountAux, concatRecords, String.append_empty], ?_, ?_⟩
      · intro h
        simpa [stopCountAux, concatRecords, String.append_empty] using h
      · intro h
        simp [stopCountAux] at h
  | r :: rest, ctx => by
      by_cases hfit : ctx.length + (formatRecord r).length ≤ maxChars
      · have hlen : (ctx ++ formatRecord r).length = ctx.length + (formatRecord r).length :=
          String.length_append ctx (formatRecord r)
        have ih := buildContextGo_spec maxChars rest (ctx ++ formatRecord r)
        rw [hlen] at ih
        have hgo : buildContextGo maxChars (r :: rest) ctx
            = buildContextGo maxChars rest (ctx ++ formatRecord r) := by
          simp [buildContextGo, hfit]
        have hcnt : stopCountAux maxChars (r :: rest) ctx.length
            = stopCountAux maxChars rest (ctx.length + (formatRecord r).length) + 1 := by
          simp [stopCountAux, hfit]
        refine ⟨?_, ?_, ?_⟩
        · rw [hgo, hcnt, ih.1, List.take_succ_cons, concatRecords_cons,
            ← String.append_assoc]
        · intro _
          have := ih.2.1 hfit
          rw [hcnt, List.take_succ_cons, concatRecords_cons, ← String.append_assoc]
          exact this
        · intro hlt
          rw [hcnt] at hlt
          have hlt' : stopCountAux maxChars rest (ctx.length + (formatRecord r).length)
              < rest.length := by
            simpa using Nat.lt_of_succ_lt_succ hlt
          have := ih.2.2 hlt'
          rw [hcnt, List.take_succ_cons, concatRecords_cons, ← String.append_assoc]
          exact this
      · have hcnt : stopCountAux maxChars (r :: rest) ctx.length = 0 := by
          simp [stopCountAux, hfit]
        refine ⟨?_, ?_, ?_⟩
        · simp [buildContextGo, hfit, hcnt, concatRecords, String.append_empty]
        · intro h
          simpa [hcnt, concatRecords, String.append_empty] using h
        · intro _
          rw [hcnt]
          have : (ctx ++ concatRecords ((r :: rest).take 1)).length
              = ctx.length + (formatRecord r).length := by
            rw [show ((r :: rest).take 1) = [r] by simp, concatRecords_cons,
              String.length_append, show concatRecords [] = "" from rfl,
              String.length_append]
            rfl
          rw [this]
          omega

/-- Claim C3 (confirmed): the per-query assembly produces exactly the
concatenation of an initial segment of the successful records — the first
record that would push the accumulated length past `charBudget` is entirely
absent (never partially appended), the assembled text never exceeds the
budget, and every record after the first overflowing one is dropped as well
(stop at first overflow, not skip and continue). -/
theorem perQuery_overflow_stops_whole (records : List ResultRecord) (maxChars : Nat) :
    buildContext records maxChars
        = concatRecords (records.take (stopCountAux maxChars records 0))
    ∧ (concatRecords (records.take (stopCountAux maxChars records 0))).length ≤ maxChars
    ∧ (stopCountAux maxChars records 0 < records.length →
        maxChars <
          (concatRecords (records.take (stopCountAux maxChars records 0 + 1))).length) := by
  have h := buildContextGo_spec maxChars records ""
  have hz : ("" : String).length = 0 := rfl
  rw [hz] at h
  simp only [String.empty_append] at h
  exact ⟨h.1, h.2.1 (Nat.zero_le _), h.2.2⟩

/-- Records for the `perQuery_overflow_stops_whole` witness: with budget 65,
`wrA` (31 chars formatted) fits, `wrB` (70 chars formatted) overflows and is
dropped whole, and `wrC` (31 chars formatted) would still have fit but is
dropped because assembly stops at the first overflow. -/
def wrA : ResultRecord := ⟨"a", "b", "c"⟩

def wrB : ResultRecord := ⟨"a", "b", "0123456789012345678901234567890123456789"⟩

def wrC : ResultRecord := ⟨"d", "e", "f"⟩

/-- Witness for `perQuery_overflow_stops_whole` at `[wrA, wrB, wrC]` with
budget 65: the stop index is inside the list, so the overflow conjunct
fires. -/
theorem perQuery_overflow_stops_whole_witness :
    buildContext [wrA, wrB, wrC] 65
        = concatRecords ([wrA, wrB, wrC].take (stopCountAux 65 [wrA, wrB, wrC] 0))
    ∧ stopCountAux 65 [wrA, wrB, wrC] 0 < ([wrA, wrB, wrC] : List ResultRecord).length
    ∧ 65 < (concatRecords
        ([wrA, wrB, wrC].take (stopCountAux 65 [wrA, wrB, wrC] 0 + 1))).length := by
  have h := perQuery_overflow_stops_whole [wrA, wrB, wrC] 65
  exact ⟨h.1, by decide, h.2.2 (by decide)⟩

/-! ## Retry-policy characterisation of `fetchContentFromUrl` -/

theorem fetchLoop_succ (e : String → String) (o : Nat → AttemptOutcome) (fuel a : Nat) :
    fetchLoop e o (fuel + 1) a =
      if attemptRetryable (o a) && decide (a < maxRetries) then
        prependDelay (2 ^ (a + 1) * 1000) (fetchLoop e o fuel (a + 1))
      else terminalResult e (o a) a := by
  cases h : o a with
  | response status ct body =>
      simp only [fetchLoop, h, attemptRetryable, terminalResult]
      cases hok : isOk status <;> cases hr : retryableStatus status <;>
        cases hd : decide (a < maxRetries) <;> simp [hok, hr, hd]
  | transportError code nm =>
      simp only [fetchLoop, h, attemptRetryable, terminalResult]
      cases hr : retryableError code nm <;> cases hd : decide (a < maxRetries) <;>
        simp [hr, hd]

theorem terminalResult_attempts (e : String → String) (a : AttemptOutcome) (n : Nat) :
    (terminalResult e a n).attempts = n + 1 := by
  cases a <;> simp only [terminalResult] <;> split_ifs <;> rfl

theorem terminalResult_delaysMs (e : String → String) (a : AttemptOutcome) (n : Nat) :
    (terminalResult e a n).delaysMs = [] := by
  cases a <;> simp only [terminalResult] <;> split_ifs <;> rfl

/-- The oracle of the spec's retry example: HTTP 503 on attempts 1 and 2,
then HTTP 200 with an HTML page. -/
def scenario503Oracle : Nat → AttemptOutcome
  | 0 => .response 503 (some "text/html") "Service Unavailable"
  | 1 => .response 503 (some "text/html") "Service Unavailable"
  | _ => .response 200 (some "text/html; charset=utf-8")
           "<html><body>retried page body</body></html>"

/-- Claim C4 (confirmed): every fetch makes `retryRun + 1 ≤ 3` attempts,
retrying exactly while the observed attempt outcome is retryable (HTTP status
in {429, 502, 503, 504}, or a connection-reset / connection-refused / timeout
transport error) and retries remain; the delay before retry `n` is
`2^n` seconds (recorded in milliseconds); the first non-retryable attempt
settles the call exactly as `terminalResult` describes (any other non-2xx
status or transport error fails immediately); and the 503/503/200 scenario
succeeds after delays of 2 s and 4 s. -/
theorem fetch_retry_policy (extract : String → String) (oracle : Nat → AttemptOutcome) :
    (fetchContentFromUrl extract oracle).outcome
        = (terminalResult extract (oracle (retryRun oracle)) (retryRun oracle)).outcome
    ∧ (fetchContentFromUrl extract oracle).retVal
        = (terminalResult extract (oracle (retryRun oracle)) (retryRun oracle)).retVal
    ∧ (fetchContentFromUrl extract oracle).attempts = retryRun oracle + 1
    ∧ (fetchContentFromUrl extract oracle).delaysMs
        = (List.range (retryRun oracle)).map (fun i => 2 ^ (i + 1) * 1000)
    ∧ (fetchContentFromUrl extract oracle).attempts ≤ 3
    ∧ fetchContentFromUrl (fun s => s) scenario503Oracle
        = ⟨"<html><body>retried page body</body></html>",
           .success "<html><body>retried page body</body></html>", 3, [2000, 4000]⟩ := by
  have hscen : fetchContentFromUrl (fun s => s) scenario503Oracle
      = ⟨"<html><body>retried page body</body></html>",
         .success "<html><body>retried page body</body></html>", 3, [2000, 4000]⟩ := by
    decide
  by_cases h0 : attemptRetryable (oracle 0)
  · by_cases h1 : attemptRetryable (oracle 1)
    · have hr : retryRun oracle = 2 := by simp [retryRun, h0, h1]
      have hfe : fetchContentFromUrl extract oracle
          = prependDelay (2 ^ (0 + 1) * 1000)
              (prependDelay (2 ^ (1 + 1) * 1000) (terminalResult extract (oracle 2) 2)) := by
        rw [fetchContentFromUrl, show maxRetries + 1 = 2 + 1 from rfl, fetchLoop_succ]
        rw [show (2 : Nat) = 1 + 1 from rfl, fetchLoop_succ, fetchLoop_succ]
        simp [h0, h1, maxRetries]
      refine ⟨?_, ?_, ?_, ?_, ?_, hscen⟩ <;>
        simp [hfe, hr, prependDelay, terminalResult_attempts, terminalResult_delaysMs] <;>
        decide
    · have hr : retryRun oracle = 1 := by simp [retryRun, h0, h1]
      have hfe : fetchContentFromUrl extract oracle
          = prependDelay (2 ^ (0 + 1) * 1000) (terminalResult extract (oracle 1) 1) := by
        rw [fetchContentFromUrl, show maxRetries + 1 = 2 + 1 from rfl, fetchLoop_succ]
        rw [show (2 : Nat) = 1 + 1 from rfl, fetchLoop_succ]
        simp [h0, h1, maxRetries]
      refine ⟨?_, ?_, ?_, ?_, ?_, hscen⟩ <;>
        simp [hfe, hr, prependDelay, terminalResult_attempts, terminalResult_delaysMs] <;>
        decide
  · have hr : retryRun oracle = 0 := by simp [retryRun, h0]
    have hfe : fetchContentFromUrl extract oracle = terminalResult extract (oracle 0) 0 := by
      rw [fetchContentFromUrl, show maxRetries + 1 = 2 + 1 from rfl, fetchLoop_succ]
      simp [h0]
    refine ⟨?_, ?_, ?_, ?_, ?_, hscen⟩ <;>
      simp [hfe, hr, prependDelay, terminalResult_attempts, terminalResult_delaysMs] <;>
      decide

/-! ## The concurrent fan-out is folded in candidate order -/

theorem listSet_getElem? {α : Type} (l : List α) (i j : Nat) (a : α) :
    (l.set i a)[j]? = if i = j then (if j < l.length then some a else none) else l[j]? := by
  rw [List.getElem?_set]
  split
  · subst i
    by_cases h : j < l.length
    · simp [List.getElem?_eq_getElem h, h]
    · simp [List.getElem?_eq_none (by omega : l.length ≤ j), h]
  · rfl

theorem fillSlots_length {α : Type} (res : Nat → α) :
    ∀ (order : List Nat) (slots : List (Option α)),
      (fillSlots res order slots).length = slots.length
  | [], _ => rfl
  | i :: rest, slots => by
      rw [fillSlots, fillSlots_length res rest, List.length_set]

theorem fillSlots_getElem? {α : Type} (res : Nat → α) :
    ∀ (order : List Nat) (slots : List (Option α)) (i : Nat), i < slots.length →
      (fillSlots res order slots)[i]?
        = if i ∈ order then some (some (res i)) else slots[i]?
  | [], slots, i, _ => by simp [fillSlots]
  | j :: rest, slots, i, h => by
      rw [fillSlots]
      have h' : i < (slots.set j (some (res j))).length := by
        rw [List.length_set]; exact h
      rw [fillSlots_getElem? res rest _ i h']
      by_cases hmem : i ∈ rest
      · have hc : i ∈ j :: rest := List.mem_cons_of_mem j hmem
        simp [hmem, hc]
      · rw [listSet_getElem?]
        by_cases hij : j = i
        · subst hij
          have hc : j ∈ j :: rest := List.mem_cons_self j rest
          simp [hmem, hc, h]
        · have hc : ¬ i ∈ j :: rest := by
            intro hx
            rcases List.mem_cons.mp hx with h1 | h2
            · exact hij h1.symm
            · exact hmem h2
          simp [hmem, hc, hij]

theorem fillSlots_full {α : Type} (res : Nat → α) (n : Nat) (order : List Nat)
    (hcov : ∀ i, i < n → i ∈ order) :
    fillSlots res order (List.replicate n none)
      = (List.range n).map (fun i => some (res i)) := by
  apply List.ext_getElem?
  intro i
  by_cases h : i < n
  · rw [fillSlots_getElem? res order _ i (by simpa using h)]
    simp [hcov i h, List.getElem?_range, h, List.getElem?_map]
  · have h1 : (fillSlots res order (List.replicate n none)).length ≤ i := by
      rw [fillSlots_length, List.length_replicate]; omega
    have h2 : ((List.range n).map fun i => some (res i)).length ≤ i := by
      simp; omega
    rw [List.getElem?_eq_none h1, List.getElem?_eq_none h2]

theorem rangeFilterMapBind {α : Type} (g : SearchItem → Option α) :
    ∀ (l : List SearchItem),
      (List.range l.length).filterMap (fun i => (l[i]?).bind g) = l.filterMap g
  | [] => rfl
  | b :: t => by
      have ih := rangeFilterMapBind g t
      rw [List.length_cons, List.range_succ_eq_map]
      cases hgb : g b with
      | none =>
          simp [List.filterMap_cons, hgb, List.filterMap_map, Function.comp_def, ih]
      | some v =>
          simp [List.filterMap_cons, hgb, List.filterMap_map, Function.comp_def, ih]

/-- Claim C6 (confirmed): whatever order the concurrent per-URL fetches
complete in (any `order` that eventually delivers every candidate's result),
the assembled per-query context is the one obtained by folding the results in
the original search-candidate order — `Promise.all` buffers each completion
into its input-position slot, so completion order is invisible to the fold. -/
theorem fold_in_candidate_order (items : List SearchItem)
    (fetchRes : String → Option String) (maxChars : Nat) (order : List Nat)
    (hcov : ∀ i, i < (validItems items).length → i ∈ order) :
    fetchDataScheduled items fetchRes maxChars order
      = fetchDataFromGoogle items fetchRes maxChars := by
  unfold fetchDataScheduled fetchDataFromGoogle
  rw [fillSlots_full _ _ _ hcov]
  have h1 : (((List.range (validItems items).length).map
        (fun i => some (((validItems items)[i]?).bind (recordOf fetchRes)))).filterMap
          id).filterMap id
      = (List.range (validItems items).length).filterMap
          (fun i => ((validItems items)[i]?).bind (recordOf fetchRes)) := by
    simp [List.filterMap_map, List.filterMap_filterMap, Function.comp_def]
  have h2 : ((validItems items).map (recordOf fetchRes)).filterMap id
      = (validItems items).filterMap (recordOf fetchRes) := by
    simp [List.filterMap_map, Function.comp_def]
  rw [h1, h2, rangeFilterMapBind]

/-- Candidates for the `fold_in_candidate_order` witness. -/
def witItems : List SearchItem :=
  [⟨"first title", "http://a.example/one"⟩, ⟨"second title", "http://b.example/two"⟩]

/-- Witness for `fold_in_candidate_order`: two candidates completing in
reversed order `[1, 0]` produce the same context as the candidate-order
fold. -/
theorem fold_in_candidate_order_witness :
    fetchDataScheduled witItems (fun _ => some (String.mk (List.replicate 150 'z'))) 500 [1, 0]
      = fetchDataFromGoogle witItems (fun _ => some (String.mk (List.replicate 150 'z'))) 500 :=
  fold_in_candidate_order witItems (fun _ => some (String.mk (List.replicate 150 'z'))) 500
    [1, 0] (by decide)

/-! ## Content-type gate, and the caller-visible return value -/

/-- Claim C8 (confirmed): a response that reaches the content-type gate (a
2xx status) but declares a content type containing neither `"html"` nor
`"text"` makes `fetchContentFromUrl` return the `Skipped` outcome after
exactly one attempt, with no retry and no backoff delay. -/
theorem nonhtml_content_type_skips_once (e : String → String)
    (o : Nat → AttemptOutcome) (status : Nat) (ctStr body : String)
    (hobs : o 0 = .response status (some ctStr) body)
    (hok : isOk status = true) (hct : contentTypeOk ctStr = false) :
    fetchContentFromUrl e o
      = ⟨"", .skipped "Skipping non-HTML/text content type", 1, []⟩ := by
  rw [fetchContentFromUrl, show maxRetries + 1 = 2 + 1 from rfl, fetchLoop_succ, hobs]
  have hnr : attemptRetryable (AttemptOutcome.response status (some ctStr) body) = false := by
    simp [attemptRetryable, hok]
  rw [hnr]
  simp [terminalResult, hok, hct]

/-- Witness for `nonhtml_content_type_skips_once`: an `application/pdf`
response is skipped after one attempt. -/
theorem nonhtml_content_type_skips_once_witness :
    fetchContentFromUrl (fun s => s)
        (fun _ => .response 200 (some "application/pdf") "%PDF-1.4")
      = ⟨"", .skipped "Skipping non-HTML/text content type", 1, []⟩ :=
  nonhtml_content_type_skips_once (fun s => s)
    (fun _ => .response 200 (some "application/pdf") "%PDF-1.4")
    200 "application/pdf" "%PDF-1.4" rfl (by decide) (by decide)

/-- The string the caller sees for a given outcome tag. -/
def successOr (out : FetchOutcome) : String :=
  match out with
  | .success s => s
  | .skipped _ => ""
  | .failed _ => ""

theorem terminalResult_retVal (e : String → String) (a : AttemptOutcome) (n : Nat) :
    (terminalResult e a n).retVal = successOr (terminalResult e a n).outcome := by
  cases a
  · simp only [terminalResult]
    split_ifs <;> rfl
  · rfl

theorem fetchLoop_retVal (e : String → String) (o : Nat → AttemptOutcome) :
    ∀ (fuel a : Nat),
      (fetchLoop e o fuel a).retVal = successOr (fetchLoop e o fuel a).outcome
  | 0, _ => rfl
  | fuel + 1, a => by
      rw [fetchLoop_succ]
      by_cases h : (attemptRetryable (o a) && decide (a < maxRetries)) = true
      · simp only [h, if_true]
        simpa [prependDelay] using fetchLoop_retVal e o fuel (a + 1)
      · simp only [h, if_false]
        exact terminalResult_retVal e (o a) a

/-- Claim C10 (confirmed): for every behaviour of the HTTP collaborator,
`fetchContentFromUrl` returns a string (the embedding is a total function —
every exception raised inside the loop body is caught by its `catch` block),
and that string is `""` on every `Skipped` and every `Failed` exit, so the
two non-success outcomes are indistinguishable to the aggregator; only a
`Success` outcome returns the extracted content. -/
theorem nonsuccess_returns_empty_string (e : String → String)
    (o : Nat → AttemptOutcome) :
    (∀ r, (fetchContentFromUrl e o).outcome = .skipped r →
        (fetchContentFromUrl e o).retVal = "")
    ∧ (∀ r, (fetchContentFromUrl e o).outcome = .failed r →
        (fetchContentFromUrl e o).retVal = "")
    ∧ (∀ s, (fetchContentFromUrl e o).outcome = .success s →
        (fetchContentFromUrl e o).retVal = s) := by
  have h : (fetchContentFromUrl e o).retVal = successOr (fetchContentFromUrl e o).outcome :=
    fetchLoop_retVal e o (maxRetries + 1) 0
  refine ⟨?_, ?_, ?_⟩ <;> intro x hx <;> rw [h, hx] <;> rfl

/-- Witness for `nonsuccess_returns_empty_string`: a skipped PDF response and
a failed (non-retryable) transport error both return `""`. -/
theorem nonsuccess_returns_empty_string_witness :
    (fetchContentFromUrl (fun s => s)
        (fun _ => .response 200 (some "application/pdf") "%PDF-1.4")).retVal = ""
    ∧ (fetchContentFromUrl (fun s => s)
        (fun _ => .transportError "ENOTFOUND" "RequestError")).retVal = "" :=
  ⟨(nonsuccess_returns_empty_string (fun s => s)
      (fun _ => .response 200 (some "application/pdf") "%PDF-1.4")).1
      "Skipping non-HTML/text content type" (by decide),
   (nonsuccess_returns_empty_string (fun s => s)
      (fun _ => .transportError "ENOTFOUND" "RequestError")).2.1
      "Error during content fetch" (by decide)⟩

/-! ## The minimum-content-length gate -/

/-- A page whose extracted text is exactly 100 characters long. -/
def hundredChars : String := String.mk (List.replicate 100 'x')

/-- Counterexample to claim C5 as stated: the code keeps a record only when
`content.length > 100`, so a page whose extracted text is **exactly 100**
characters is dropped ("No valid content extracted"), where the claim
predicts `Success`. -/
theorem content_length_gate_cx :
    hundredChars.length = 100
    ∧ recordOf (fun _ => some hundredChars)
        ⟨"Example", "http://site.example/page"⟩ = none := by
  constructor
  · decide
  · decide

/-- Claim C5 (corrected): a fetched page's content is kept (contributing a
record) exactly when the extracted text is strictly longer than 100
characters; with length ≤ 100 — in particular exactly 100 — it is dropped. -/
theorem content_length_gate_amended (fetchRes : String → Option String)
    (it : SearchItem) (c : String) (h : fetchRes it.link = some c) :
    (recordOf fetchRes it).isSome = true ↔ 100 < c.length := by
  unfold recordOf
  rw [h]
  by_cases hlen : 100 < c.length <;> simp [hlen]

/-- A page whose extracted text is 101 characters long. -/
def hundredOneChars : String := String.mk (List.replicate 101 'x')

/-- Witness for `content_length_gate_amended`: 101 extracted characters are
kept. -/
theorem content_length_gate_amended_witness :
    (recordOf (fun _ => some hundredOneChars)
        ⟨"Example", "http://site.example/page"⟩).isSome = true :=
  (content_length_gate_amended (fun _ => some hundredOneChars)
    ⟨"Example", "http://site.example/page"⟩ hundredOneChars rfl).mpr (by decide)

/-! ## The URL filter -/

/-- Counterexample to claim C7 as stated: the candidate filter never parses
the URL, so the malformed candidate `"not a url"` (no scheme separator at
all) is **not** excluded — `isFetchable` returns `true` where the claim
requires `false`. -/
theorem url_filter_malformed_cx :
    lacksScheme "not a url" = true ∧ isFetchable "not a url" = true := by
  decide

/-- Claim C7 (corrected): the filter applies only the two pattern sets to the
raw link string — the file-extension exclusion set first, then the
path-pattern exclusion set; the first match of either rule excludes (with the
matching rule's failure reason), and the absence of any match allows, even
for a malformed URL; the filter is a total function and never raises. -/
theorem url_filter_first_match (link : String) :
    (isFetchable link = true ↔ (extMatch link = false ∧ patMatch link = false))
    ∧ (extMatch link = true → urlFilterReason link = some "Excluded file extension")
    ∧ (extMatch link = false → patMatch link = true →
        urlFilterReason link = some "Suspected non-content URL")
    ∧ (isFetchable link = true ↔ urlFilterReason link = none) := by
  unfold isFetchable urlFilterReason
  by_cases he : extMatch link <;> by_cases hp : patMatch link <;> simp [he, hp]

/-- Witness for `url_filter_first_match`: a `.pdf` link is excluded by the
extension rule. -/
theorem url_filter_first_match_witness :
    urlFilterReason "http://x.example/file.pdf" = some "Excluded file extension" :=
  (url_filter_first_match "http://x.example/file.pdf").2.1 (by decide)

end Crawl
